import Mathlib

/-!
Shallow embedding of the `dynamic_forms` Django backend
(apps/forms and apps/notifications), covering:

* the schema-driven data validation of `FormSubmissionCreateSerializer`
  (`backend/apps/forms/serializers.py`);
* the `FormTemplate` / `FormSubmission` models and the view-level update
  hooks (`backend/apps/forms/models.py`, `views.py`);
* the permission checks (`backend/apps/forms/permissions.py`);
* the notification model and tasks
  (`backend/apps/notifications/models.py`, `backend/apps/forms/tasks.py`).

Machine integers do not occur (Python ints are unbounded); times are
modelled as abstract `Nat` instants passed in for `timezone.now()`.
-/

namespace DynamicForms

/-! ## JSON values

Form data and schema option values are JSON.  The validation code only ever
inspects scalars (`str` / number / bool), `null`, and flat lists of scalars
(multiselect values, file lists); nested containers are never consulted, so
array elements are restricted to scalars here to keep equality decidable. -/

inductive JPrim where
  | str (s : String)
  | num (q : Rat)
  | bool (b : Bool)
deriving DecidableEq, Repr

inductive JValue where
  | null
  | prim (p : JPrim)
  | arr (elems : List JPrim)
deriving DecidableEq, Repr

abbrev JValue.str (s : String) : JValue := .prim (.str s)
abbrev JValue.num (q : Rat) : JValue := .prim (.num q)
abbrev JValue.boolean (b : Bool) : JValue := .prim (.bool b)

/-- A JSON object used as the `data` payload of a submission: a key/value
association list (Python `dict`, so keys are unique in real payloads). -/
abbrev Data := List (String × JValue)

/-- Python `data.get(field_name)` followed by the `is None` test conflates a
missing key with an explicit JSON `null`; `pyGet` returns `JValue.null` for a
missing key to mirror that. -/
def pyGet (d : Data) (k : String) : JValue :=
  match d.find? (fun kv => kv.1 = k) with
  | some kv => kv.2
  | none => JValue.null

/-! ## Field descriptors (the `schema['fields']` entries) -/

/-- The `FIELD_TYPES` choices of `FormField` (models.py), which are also the
valid `type` values for schema fields. -/
inductive FieldType where
  | text | textarea | number | email | phone | date | datetime
  | select | multiselect | checkbox | radio | file | files
  | richtext | rating | slider | address | signature
deriving DecidableEq, Repr

/-- An entry of a field's `options` array (`{'label': ..., 'value': ...}`). -/
structure FieldOption where
  label : String
  value : JValue
deriving DecidableEq, Repr

/-- The numeric `config` sub-object (`'min' in config`, `'max' in config`). -/
structure NumConfig where
  min : Option Rat := none
  max : Option Rat := none
deriving DecidableEq, Repr

/-- A field descriptor from `schema['fields']`.  `required` defaults to
`False` (`field.get('required', False)`); `config` is present iff
`'config' in field`. -/
structure FieldDesc where
  name : String
  label : String
  ftype : FieldType
  required : Bool := false
  options : List FieldOption := []
  config : Option NumConfig := none
deriving DecidableEq, Repr

/-- A template's `schema` JSON, as consulted by `validate_form_data`:
`empty` covers both a falsy schema and a schema without a `'fields'` key
(`if not form_template.schema or 'fields' not in form_template.schema`). -/
inductive FormSchema where
  | empty
  | withFields (fields : List FieldDesc)
deriving DecidableEq, Repr

/-! ## Helpers for the type-specific value checks

These model Python / Django library calls used by `validate_field_value`.
Their exact semantics is irrelevant to every claim below (no claim exercises
a particular parser outcome); they are executable stand-ins whose structure
follows the library behaviour on the inputs that occur. -/

/-- Python `str(value)` for the JSON values above (numeric and container
rendering is an abstraction; only the string case is exercised). -/
def pyStr : JValue → String
  | .prim (.str s) => s
  | .prim (.num q) => toString q
  | .prim (.bool b) => cond b "True" "False"
  | .null => "None"
  | .arr _ => "[...]"

/-- Split a character list at every occurrence of `sep` (the characters of
`str.split(sep)` / the splitting the library helpers below need), by
structural recursion so that proofs can evaluate it. -/
def splitOnChar (sep : Char) : List Char → List (List Char)
  | [] => [[]]
  | c :: cs =>
      if c = sep then [] :: splitOnChar sep cs
      else
        match splitOnChar sep cs with
        | h :: t => (c :: h) :: t
        | [] => [[c]]

/-- Value of a digit list, most significant first. -/
def digitsVal (cs : List Char) : Nat :=
  cs.foldl (fun n c => n * 10 + (c.toNat - 48)) 0

/-- Decimal string parsing, standing in for Python `float(s)` (exponents,
`inf`/`nan` and surrounding whitespace are not modelled). -/
def parseFloatString (s : String) : Option Rat :=
  let core := fun (t : List Char) =>
    match splitOnChar '.' t with
    | [w] =>
        if decide (w.length > 0) && w.all Char.isDigit then
          some (((digitsVal w : Nat) : Int) : Rat)
        else none
    | [w, f] =>
        if (decide (w.length > 0) || decide (f.length > 0)) &&
            w.all Char.isDigit && f.all Char.isDigit then
          some ((((digitsVal w : Nat) : Int) : Rat) +
            ((digitsVal f : Nat) : Rat) / ((10 : Rat) ^ f.length))
        else none
    | _ => none
  match s.data with
  | '-' :: rest => (core rest).map (fun q => -q)
  | '+' :: rest => core rest
  | _ => core s.data

/-- Python `float(value)` on a JSON value: numbers pass through, booleans
coerce, numeric strings parse, everything else raises
`ValueError`/`TypeError` (modelled as `none`). -/
def parseNumber : JValue → Option Rat
  | .prim (.num q) => some q
  | .prim (.bool b) => some (cond b 1 0)
  | .prim (.str s) => parseFloatString s
  | .null => none
  | .arr _ => none

/-- Python truthiness of a JSON value (`not value`). -/
def pyTruthy : JValue → Bool
  | .null => false
  | .prim (.str s) => decide (s.length > 0)
  | .prim (.num q) => decide (q ≠ 0)
  | .prim (.bool b) => b
  | .arr es => decide (es ≠ [])

/-- Abstraction of `django.core.validators.validate_email` succeeding on a
STRING value: one `@` with a nonempty local part and a dotted, nonempty
domain.  (Non-string values never reach this helper; they crash or fail in
`validate_field_value` below, following the validator's control flow.) -/
def isValidEmailStr (s : String) : Bool :=
  match splitOnChar '@' s.data with
  | [local_, domain] =>
      decide (local_.length > 0) && decide (domain.length > 0) &&
      decide ((splitOnChar '.' domain).length ≥ 2) &&
      (splitOnChar '.' domain).all (fun part => decide (part.length > 0))
  | _ => false

/-- The phone regex of `validate_field_value`, applied to `str(value)`:
`^[\+]?[1-9][\d]{0,15}$`. -/
def isPhone (s : String) : Bool :=
  let cs :=
    match s.data with
    | '+' :: rest => rest
    | cs => cs
  match cs with
  | [] => false
  | c :: rest => ('1' ≤ c && c ≤ '9') && rest.length ≤ 15 && rest.all Char.isDigit

/-- Abstraction of `datetime.strptime(str(value), '%Y-%m-%d')` succeeding:
three dash-separated digit groups with a 4-digit year, month 1–12, day 1–31
(per-month day limits are not modelled; no claim exercises them). -/
def isDateString (s : String) : Bool :=
  match splitOnChar '-' s.data with
  | [y, m, d] =>
      decide (y.length = 4) && y.all Char.isDigit &&
      decide (m.length > 0) && decide (m.length ≤ 2) && m.all Char.isDigit &&
      decide (d.length > 0) && decide (d.length ≤ 2) && d.all Char.isDigit &&
      decide (1 ≤ digitsVal m) && decide (digitsVal m ≤ 12) &&
      decide (1 ≤ digitsVal d) && decide (digitsVal d ≤ 31)
  | _ => false

/-- Abstraction of `datetime.fromisoformat(str(value).replace('Z','+00:00'))`
succeeding: an ISO date, optionally followed by a time separator and more
characters (full ISO grammar not modelled; no claim exercises it). -/
def isIsoDatetimeString (s : String) : Bool :=
  isDateString (String.mk (s.data.take 10)) && (s.length = 10 || s.length ≥ 16)

/-! ## Per-field value validation

`FormSubmissionCreateSerializer.validate_field_value` (serializers.py,
lines 201-276). -/

/-- Outcome of one `validate_field_value` call: a normal return, a raised
`serializers.ValidationError(msg)`, or an exception of some OTHER class
(`TypeError`/`AttributeError`) escaping the method — the caller catches
only `serializers.ValidationError`, so `crash` aborts the caller too.
Error message texts follow the source minus the surrounding quote
characters. -/
inductive FieldCheck where
  | ok
  | invalid (msg : String)
  | crash
deriving DecidableEq, Repr

def validate_field_value (field_config : FieldDesc) (value : JValue) : FieldCheck :=
  -- `if value is None or value == '': return  # Skip validation for empty values`
  if value = JValue.null ∨ value = JValue.str "" then .ok
  else
    let field_label := field_config.label
    match field_config.ftype with
    | .number =>
        -- `float(value)` then the min/max checks from `field_config['config']`;
        -- `ValueError`/`TypeError` from `float` are caught by this branch.
        match parseNumber value with
        | none => .invalid ("" ++ field_label ++ " must be a number")
        | some num_value =>
            match field_config.config with
            | some config =>
                if h : config.min.isSome then
                  if num_value < config.min.get h then
                    .invalid ("" ++ field_label ++ " must be at least "
                      ++ toString (config.min.get h))
                  else if hx : config.max.isSome then
                    if num_value > config.max.get hx then
                      .invalid ("" ++ field_label ++ " must be at most "
                        ++ toString (config.max.get hx))
                    else .ok
                  else .ok
                else if hx : config.max.isSome then
                  if num_value > config.max.get hx then
                    .invalid ("" ++ field_label ++ " must be at most "
                      ++ toString (config.max.get hx))
                  else .ok
                else .ok
            | none => .ok
    | .email =>
        -- `validate_email(value)` starts with
        -- `if not value or '@' not in value: raise ValidationError`.
        -- On a string the branch's `except ValidationError` turns a failure
        -- into the usual message.  On a non-string: a falsy value or a list
        -- without an `'@'` element takes the ValidationError path (caught);
        -- `'@' in <number/bool>` raises `TypeError` and a list containing
        -- `'@'` reaches `value.rsplit('@', 1)` and raises `AttributeError`
        -- — both escape `except ValidationError` and crash the caller.
        match value with
        | .prim (.str s) =>
            if isValidEmailStr s then .ok
            else .invalid ("" ++ field_label ++ " must be a valid email")
        | v =>
            if !pyTruthy v then .invalid ("" ++ field_label ++ " must be a valid email")
            else
              match v with
              | .arr es =>
                  if es.contains (.str "@") then .crash
                  else .invalid ("" ++ field_label ++ " must be a valid email")
              | _ => .crash
    | .phone =>
        if isPhone (pyStr value) then .ok
        else .invalid ("" ++ field_label ++ " must be a valid phone number")
    | .select =>
        let valid_values := field_config.options.map FieldOption.value
        if value ∈ valid_values then .ok
        else .invalid ("" ++ field_label ++ " contains invalid selection")
    | .radio =>
        let valid_values := field_config.options.map FieldOption.value
        if value ∈ valid_values then .ok
        else .invalid ("" ++ field_label ++ " contains invalid selection")
    | .multiselect =>
        match value with
        | .arr elems =>
            let valid_values := field_config.options.map FieldOption.value
            match elems.find? (fun v => !(JValue.prim v ∈ valid_values)) with
            | some v =>
                .invalid ("" ++ field_label ++ " contains invalid selection: "
                  ++ pyStr (.prim v))
            | none => .ok
        | _ => .invalid ("" ++ field_label ++ " must be a list of values")
    | .date =>
        if isDateString (pyStr value) then .ok
        else .invalid ("" ++ field_label ++ " must be a valid date (YYYY-MM-DD)")
    | .datetime =>
        if isIsoDatetimeString (pyStr value) then .ok
        else .invalid ("" ++ field_label ++ " must be a valid datetime")
    | _ => .ok

/-- `FormSubmissionCreateSerializer.get_field_config`: first field with the
given name, else `None`. -/
def get_field_config (fields : List FieldDesc) (field_name : String) : Option FieldDesc :=
  fields.find? (fun field => field.name = field_name)

/-- The emptiness test of the required-field loop in `validate_form_data`:
`field_value is None or field_value == '' or (isinstance(field_value, list)
and len(field_value) == 0)`. -/
def isEmptyValue : JValue → Bool
  | .null => true
  | .prim (.str "") => true
  | .arr [] => true
  | _ => false

/-- The required-field loop of `validate_form_data` raises on the FIRST
required field whose value is missing/empty; this returns that field and its
error message, if any. -/
def find_required_error (fields : List FieldDesc) (data : Data) : Option (String × String) :=
  fields.findSome? (fun field =>
    if field.required then
      if isEmptyValue (pyGet data field.name) then
        some (field.name, "Field " ++ field.label ++ " is required")
      else none
    else none)

/-- The error payload of a raised `serializers.ValidationError`: a mapping
from field name to a list of messages. -/
abbrev ValidationErrors := List (String × List String)

/-- The second phase of `validate_form_data`: iterate over `data.items()`
in order, look up each field's config, and collect `validate_field_value`
errors into a per-field-name error mapping
(`errors[field_name] = e.detail`).  The loop's `try` catches ONLY
`serializers.ValidationError`: a `crash` from `validate_field_value`
propagates immediately, aborting the loop with no mapping
(`.error ()` here). -/
def collect_type_errors (fields : List FieldDesc) : Data → Except Unit ValidationErrors
  | [] => .ok []
  | kv :: rest =>
      match get_field_config fields kv.1 with
      | none => collect_type_errors fields rest
      | some field_config =>
          match validate_field_value field_config kv.2 with
          | .crash => .error ()
          | .ok => collect_type_errors fields rest
          | .invalid msg =>
              (collect_type_errors fields rest).map (fun errs => (kv.1, [msg]) :: errs)

/-- Outcome of `validate_form_data`: a normal return, a raised
`serializers.ValidationError` carrying the field-scoped mapping, or an
uncaught exception (`TypeError`/`AttributeError` out of the email branch)
aborting the whole validation with no mapping at all. -/
inductive ValidationOutcome where
  | ok
  | failed (errors : ValidationErrors)
  | crash
deriving DecidableEq, Repr

/-- `FormSubmissionCreateSerializer.validate_form_data` (serializers.py,
lines 160-192).  A falsy schema or one without `'fields'` returns
immediately; then the required-field loop raises on the first missing
required field; then type errors are collected — a crash while collecting
aborts everything — and raised together if any. -/
def validate_form_data (schema : FormSchema) (data : Data) : ValidationOutcome :=
  match schema with
  | .empty => .ok
  | .withFields fields =>
      match find_required_error fields data with
      | some nameMsg => .failed [(nameMsg.1, [nameMsg.2])]
      | none =>
          match collect_type_errors fields data with
          | .error () => .crash
          | .ok errors => if errors.isEmpty then .ok else .failed errors

/-- Submission status choices (`FormSubmission.STATUS_CHOICES`). -/
inductive SubStatus where
  | draft | submitted | reviewed | approved | rejected
deriving DecidableEq, Repr

/-- `FormSubmissionCreateSerializer.validate`: form data is validated only
when the incoming status is `'submitted'` (`attrs.get('status', 'draft')`). -/
def serializer_validate (schema : FormSchema) (data : Data) (status : SubStatus) :
    ValidationOutcome :=
  if status = .submitted then validate_form_data schema data else .ok

/-! ## Users (`apps/users/models.py`) -/

/-- `User.ROLE_CHOICES`. -/
inductive Role where
  | admin | client
deriving DecidableEq, Repr

/-- The user fields consulted by the forms/notifications code.  Primary keys
are modelled as `Nat`. -/
structure User where
  id : Nat
  username : String := ""
  email : String := ""
  role : Role := .client
  is_authenticated : Bool := true
deriving DecidableEq, Repr

/-! ## FormTemplate (`apps/forms/models.py`) -/

/-- `FormTemplate.STATUS_CHOICES`. -/
inductive TemplateStatus where
  | draft | active | inactive
deriving DecidableEq, Repr

/-- `FormTemplate`.  `created_at`/`updated_at` are auto timestamps consulted
by no claim and omitted. -/
structure FormTemplate where
  id : Nat
  name : String := ""
  description : String := ""
  created_by : Option Nat := none
  status : TemplateStatus := .draft
  schema : FormSchema := .empty
  allow_multiple_submissions : Bool := false
  require_authentication : Bool := true
  auto_save_drafts : Bool := true
  version : Nat := 1
deriving DecidableEq, Repr

/-- `FormTemplate.increment_version`: `self.version += 1; self.save(...)`. -/
def increment_version (t : FormTemplate) : FormTemplate :=
  { t with version := t.version + 1 }

/-- A validated partial update for a template.  `FormTemplateSerializer`
declares `read_only_fields = ['id', 'created_by', 'version', 'created_at',
'updated_at']`, so those never appear in `validated_data` and are absent
here; `some` marks a key present in the PATCH body. -/
structure TemplatePatch where
  name : Option String := none
  description : Option String := none
  status : Option TemplateStatus := none
  schema : Option FormSchema := none
  allow_multiple_submissions : Option Bool := none
  require_authentication : Option Bool := none
  auto_save_drafts : Option Bool := none
deriving DecidableEq, Repr

/-- `serializer.save()` on a template: apply every validated field. -/
def applyTemplatePatch (t : FormTemplate) (p : TemplatePatch) : FormTemplate :=
  { t with
    name := p.name.getD t.name
    description := p.description.getD t.description
    status := p.status.getD t.status
    schema := p.schema.getD t.schema
    allow_multiple_submissions := p.allow_multiple_submissions.getD t.allow_multiple_submissions
    require_authentication := p.require_authentication.getD t.require_authentication
    auto_save_drafts := p.auto_save_drafts.getD t.auto_save_drafts }

/-- `FormTemplateDetailView.perform_update` (views.py, lines 40-47):
`serializer.save()` runs, followed by `increment_version`, ONLY when a
`schema` key is present in `validated_data` and differs from the stored
schema; in every other case the method falls through without calling
`serializer.save()` at all, so the template is left untouched. -/
def FormTemplateDetailView_perform_update (t : FormTemplate) (p : TemplatePatch) :
    FormTemplate :=
  match p.schema with
  | some new_schema =>
      if t.schema ≠ new_schema then increment_version (applyTemplatePatch t p) else t
  | none => t

/-! ## FormSubmission (`apps/forms/models.py`, serializers, views) -/

/-- `FormSubmission`.  `created_at`/`updated_at` are auto timestamps
consulted by no claim and omitted; times are abstract `Nat` instants. -/
structure FormSubmission where
  id : Nat
  form_template : Nat
  submitted_by : Option Nat := none
  data : Data := []
  schema_version : Nat := 1
  status : SubStatus := .draft
  submitted_at : Option Nat := none
  reviewed_by : Option Nat := none
  reviewed_at : Option Nat := none
  review_notes : String := ""
deriving DecidableEq, Repr

/-- `FormSubmissionCreateSerializer.create` (serializers.py, lines 141-147):
`validated_data['schema_version'] = form_template.version` and
`validated_data['submitted_by'] = request.user` before the row is created. -/
def FormSubmissionCreateSerializer_create (form_template : FormTemplate)
    (request_user : Option Nat) (id : Nat) (data : Data) (status : SubStatus) :
    FormSubmission :=
  { id := id
    form_template := form_template.id
    submitted_by := request_user
    data := data
    schema_version := form_template.version
    status := status }

/-- A validated partial update for a submission through
`FormSubmissionSerializer` (the serializer used by
`FormSubmissionDetailView`).  Its `read_only_fields` are `['id',
'submitted_by', 'schema_version', 'created_at', 'updated_at',
'submitted_at']`, so the writable keys are exactly `form_template`, `data`,
`status`, `reviewed_by`, `reviewed_at`, `review_notes`. -/
structure SubmissionPatch where
  form_template : Option Nat := none
  data : Option Data := none
  status : Option SubStatus := none
  reviewed_by : Option (Option Nat) := none
  reviewed_at : Option (Option Nat) := none
  review_notes : Option String := none
deriving DecidableEq, Repr

/-- `serializer.save()` on a submission: apply every validated field. -/
def applySubmissionPatch (s : FormSubmission) (p : SubmissionPatch) : FormSubmission :=
  { s with
    form_template := p.form_template.getD s.form_template
    data := p.data.getD s.data
    status := p.status.getD s.status
    reviewed_by := p.reviewed_by.getD s.reviewed_by
    reviewed_at := p.reviewed_at.getD s.reviewed_at
    review_notes := p.review_notes.getD s.review_notes }

/-- `FormSubmissionListCreateView.perform_create` (views.py, lines 69-78):
after `serializer.save()`, if the new submission's status is `'submitted'`
it stamps `submitted_at = timezone.now()` and queues
`send_form_submission_notification`; the boolean records whether the task
was queued. -/
def FormSubmissionListCreateView_perform_create (now : Nat)
    (submission : FormSubmission) : FormSubmission × Bool :=
  if submission.status = .submitted then
    ({ submission with submitted_at := some now }, true)
  else (submission, false)

/-- Result of `FormSubmissionDetailView.perform_update`: the saved
submission plus whether `send_form_submission_notification.delay` was
queued. -/
structure UpdateResult where
  submission : FormSubmission
  queued : Bool
deriving DecidableEq, Repr

/-- `FormSubmissionDetailView.perform_update` (views.py, lines 91-103):
`submission = serializer.save()`; then only when a `status` key is present,
the new status is `'submitted'` and `submitted_at` is not yet set does it
stamp `submitted_at` and queue the submission notification.  No branch
handles `reviewed`/`approved`/`rejected`: those fall through with no
reviewer stamping and no notification. -/
def FormSubmissionDetailView_perform_update (now : Nat)
    (submission : FormSubmission) (p : SubmissionPatch) : UpdateResult :=
  let saved := applySubmissionPatch submission p
  match p.status with
  | some new_status =>
      if new_status = .submitted ∧ saved.submitted_at = none then
        { submission := { saved with submitted_at := some now }, queued := true }
      else { submission := saved, queued := false }
  | none => { submission := saved, queued := false }

/-! ## Permissions (`apps/forms/permissions.py`) -/

/-- `IsOwnerOrAdmin.has_object_permission` (permissions.py, lines 27-41):
admins may access any submission, other users only their own.  This is the
object permission guarding `FormSubmissionDetailView`, i.e. the only check
applied to a status update. -/
def IsOwnerOrAdmin_has_object_permission (user : User) (obj : FormSubmission) : Bool :=
  if user.role = .admin then true
  else obj.submitted_by = some user.id

/-- `CanSubmitForm.has_object_permission` (permissions.py, lines 53-81),
with the existing-submission query
`FormSubmission.objects.filter(form_template=obj, submitted_by=request.user,
status='submitted').exists()` evaluated against the given submission list.
(This permission class is defined but attached to no view.) -/
def CanSubmitForm_has_object_permission (user : User) (obj : FormTemplate)
    (all_submissions : List FormSubmission) : Bool :=
  if user.role = .admin then true
  else if obj.require_authentication && !user.is_authenticated then false
  else if !obj.allow_multiple_submissions then
    !(all_submissions.any (fun s =>
      s.form_template = obj.id && s.submitted_by = some user.id && s.status = .submitted))
  else true

/-- The database constraint `unique_together = [['form_template',
'submitted_by']]` on `FormSubmission.Meta` (models.py, line 86): true when
inserting `sub` would collide with an existing row on the pair.  The
constraint is unconditional: it does not consult
`allow_multiple_submissions` or the rows' status. -/
def violates_unique_together (rows : List FormSubmission) (sub : FormSubmission) : Bool :=
  rows.any (fun t => t.form_template = sub.form_template && t.submitted_by = sub.submitted_by)

/-- Inserting a submission row, as the database sees it: the
`unique_together` constraint rejects a duplicate `(form_template,
submitted_by)` pair with an integrity error. -/
def db_insert_submission (rows : List FormSubmission) (sub : FormSubmission) :
    Except String (List FormSubmission) :=
  if violates_unique_together rows sub then
    .error "UNIQUE constraint failed: form_template, submitted_by"
  else .ok (rows ++ [sub])

/-! ## Notifications (`apps/notifications/models.py`, `apps/forms/tasks.py`) -/

/-- `Notification.TYPE_CHOICES`. -/
inductive NotificationType where
  | form_submitted | form_reviewed | form_approved | form_rejected | system
deriving DecidableEq, Repr

/-- `Notification`.  `created_at` is an auto timestamp consulted by no
claim and omitted. -/
structure Notification where
  recipient : Nat
  notification_type : NotificationType
  title : String := ""
  message : String := ""
  related_object_id : Option Nat := none
  related_object_type : String := ""
  is_read : Bool := false
  is_emailed : Bool := false
  email_sent_at : Option Nat := none
  read_at : Option Nat := none
deriving DecidableEq, Repr

/-- `Notification.mark_as_read` (notifications/models.py, lines 41-45):
`if not self.is_read: self.is_read = True; self.read_at = timezone.now();
save(...)` — already-read notifications are left exactly as they are. -/
def mark_as_read (now : Nat) (n : Notification) : Notification :=
  if n.is_read then n
  else { n with is_read := true, read_at := some now }

/-- `send_form_submission_notification` (tasks.py, lines 13-51): one
in-app notification per `role='admin'` user, each of type
`'form_submitted'` and linked to the submission.  The message text embeds
the submitter's display name in the source; the name lookup is elided here
(no claim consults the message body).  Each created notification also
queues `send_email_notification`, modelled separately below. -/
def send_form_submission_notification (users : List User)
    (submission : FormSubmission) (template_name : String) : List Notification :=
  (users.filter (fun u => u.role = .admin)).map (fun admin =>
    { recipient := admin.id
      notification_type := .form_submitted
      title := "New Form Submission: " ++ template_name
      message := "A new submission has been received for " ++ template_name ++ "."
      related_object_id := some submission.id
      related_object_type := "form_submission" })

/-- State threaded through runs of the `send_email_notification` task for a
single notification: the notification row, its recipient's email address
(`''` when the user record has none, matching the falsy check), and the log
of emails handed to the transport. -/
structure EmailState where
  notif : Notification
  recipient_email : String
  sent : List String := []
deriving DecidableEq, Repr

/-- One run of `send_email_notification` (tasks.py, lines 54-114): return
immediately when `notification.is_emailed` is already set; return when the
recipient has no email address; otherwise send the email and then set
`is_emailed` / `email_sent_at` on the row. -/
def send_email_notification (now : Nat) (s : EmailState) : EmailState :=
  if s.notif.is_emailed then s
  else if s.recipient_email = "" then s
  else
    { s with
      notif := { s.notif with is_emailed := true, email_sent_at := some now }
      sent := s.sent ++ [s.recipient_email] }

/-- A sequence of runs of the email task at the given instants. -/
def run_email_task (ts : List Nat) (s : EmailState) : EmailState :=
  ts.foldl (fun st t => send_email_notification t st) s

/-! ## System state and the operations of claim C2 -/

/-- Replace the element at index `i` (no-op when out of range). -/
def updateAt {α : Type _} (l : List α) (i : Nat) (f : α → α) : List α :=
  match l, i with
  | [], _ => []
  | x :: xs, 0 => f x :: xs
  | x :: xs, n + 1 => x :: updateAt xs n f

/-- The persistent state the claims quantify over: one template, the user
table, the submission rows and the notification rows. -/
structure SystemState where
  template : FormTemplate
  users : List User
  submissions : List FormSubmission
  notifications : List Notification
deriving DecidableEq, Repr

/-- The operations that can follow a submission's creation, as enumerated
by claim C2: a submission update through `FormSubmissionDetailView`, a
template update through `FormTemplateDetailView` (which edits the schema
and may bump the version), and a bare `increment_version`. -/
inductive Op where
  | updateSubmission (i : Nat) (p : SubmissionPatch) (now : Nat)
  | templateUpdate (p : TemplatePatch)
  | templateIncrement
deriving DecidableEq, Repr

/-- One operation against the state.  A queued submission notification is
delivered by running the task (asynchrony is collapsed: the task's row
creations are appended at once). -/
def stepOp (s : SystemState) : Op → SystemState
  | .updateSubmission i p now =>
      match s.submissions[i]? with
      | none => s
      | some sub =>
          let r := FormSubmissionDetailView_perform_update now sub p
          { s with
            submissions := updateAt s.submissions i (fun _ => r.submission)
            notifications := s.notifications ++
              (if r.queued then
                send_form_submission_notification s.users r.submission s.template.name
              else []) }
  | .templateUpdate p =>
      { s with template := FormTemplateDetailView_perform_update s.template p }
  | .templateIncrement =>
      { s with template := increment_version s.template }

/-- Apply a sequence of operations. -/
def applyOps (ops : List Op) (s : SystemState) : SystemState :=
  ops.foldl stepOp s

/-! ## Helper lemmas -/

theorem getElem?_updateAt {α : Type _} (l : List α) (i j : Nat) (f : α → α) :
    (updateAt l i f)[j]? = if i = j then (l[j]?).map f else l[j]? := by
  induction l generalizing i j with
  | nil => simp [updateAt]
  | cons x xs ih =>
      cases i with
      | zero =>
          cases j with
          | zero => simp [updateAt]
          | succ j => simp [updateAt]
      | succ i =>
          cases j with
          | zero => simp [updateAt]
          | succ j =>
              simp only [updateAt, List.getElem?_cons_succ, ih]
              by_cases h : i = j <;> simp [h]

theorem applySubmissionPatch_schema_version (s : FormSubmission) (p : SubmissionPatch) :
    (applySubmissionPatch s p).schema_version = s.schema_version := rfl

theorem applySubmissionPatch_submitted_at (s : FormSubmission) (p : SubmissionPatch) :
    (applySubmissionPatch s p).submitted_at = s.submitted_at := rfl

theorem applySubmissionPatch_status (s : FormSubmission) (p : SubmissionPatch)
    (st : SubStatus) (h : p.status = some st) :
    (applySubmissionPatch s p).status = st := by
  simp [applySubmissionPatch, h]

theorem applyTemplatePatch_version (t : FormTemplate) (p : TemplatePatch) :
    (applyTemplatePatch t p).version = t.version := rfl

theorem perform_update_schema_version (now : Nat) (s : FormSubmission)
    (p : SubmissionPatch) :
    (FormSubmissionDetailView_perform_update now s p).submission.schema_version
      = s.schema_version := by
  unfold FormSubmissionDetailView_perform_update
  cases p.status <;> dsimp <;> try rfl
  split <;> rfl

theorem stepOp_preserves_schema_version (s : SystemState) (op : Op) (i : Nat)
    (sub : FormSubmission) (h : s.submissions[i]? = some sub) :
    ∃ sub', (stepOp s op).submissions[i]? = some sub' ∧
      sub'.schema_version = sub.schema_version := by
  cases op with
  | templateUpdate p =>
      exact ⟨sub, by simpa only [stepOp] using h, rfl⟩
  | templateIncrement =>
      exact ⟨sub, by simpa only [stepOp] using h, rfl⟩
  | updateSubmission j p now =>
      simp only [stepOp]
      cases hj : s.submissions[j]? with
      | none => exact ⟨sub, h, rfl⟩
      | some sub2 =>
          dsimp only
          rw [getElem?_updateAt]
          by_cases hij : j = i
          · subst hij
            rw [h] at hj
            injection hj with hh
            subst hh
            refine ⟨(FormSubmissionDetailView_perform_update now sub p).submission, ?_,
              perform_update_schema_version now sub p⟩
            rw [if_pos rfl, h]
            rfl
          · rw [if_neg hij]
            exact ⟨sub, h, rfl⟩

theorem applyOps_preserves_schema_version (ops : List Op) (s : SystemState) (i : Nat)
    (sub : FormSubmission) (h : s.submissions[i]? = some sub) :
    ∃ sub', (applyOps ops s).submissions[i]? = some sub' ∧
      sub'.schema_version = sub.schema_version := by
  induction ops generalizing s sub with
  | nil => exact ⟨sub, h, rfl⟩
  | cons op ops ih =>
      obtain ⟨sub1, h1, e1⟩ := stepOp_preserves_schema_version s op i sub h
      obtain ⟨sub2, h2, e2⟩ := ih (stepOp s op) sub1 h1
      exact ⟨sub2, h2, e2.trans e1⟩

/-! ## Claim theorems -/

/-- C2: a submission's `schema_version` equals the owning template's
`version` at the moment the submission is created
(`FormSubmissionCreateSerializer.create` copies `form_template.version`),
and no subsequent operation — submission update through the detail view,
template update (schema edit), or template version increment — changes that
submission's `schema_version`. -/
theorem schema_version_frozen (s : SystemState) (request_user : Option Nat)
    (id : Nat) (d : Data) (st : SubStatus) (now : Nat) (ops : List Op) :
    ∃ sub',
      (applyOps ops
          { s with
            submissions := s.submissions ++
              [(FormSubmissionListCreateView_perform_create now
                  (FormSubmissionCreateSerializer_create s.template request_user id d st)).1] }
        ).submissions[s.submissions.length]? = some sub' ∧
      sub'.schema_version = s.template.version := by
  have hv : (FormSubmissionListCreateView_perform_create now
      (FormSubmissionCreateSerializer_create s.template request_user id d st)).1.schema_version
      = s.template.version := by
    unfold FormSubmissionListCreateView_perform_create
    split <;> rfl
  obtain ⟨sub', h', e'⟩ :=
    applyOps_preserves_schema_version ops
      { s with
        submissions := s.submissions ++
          [(FormSubmissionListCreateView_perform_create now
              (FormSubmissionCreateSerializer_create s.template request_user id d st)).1] }
      s.submissions.length _
      (List.getElem?_concat_length s.submissions _)
  exact ⟨sub', h', e'.trans hv⟩

/-- C7: a template update whose payload contains a `schema` different from
the stored one bumps `version` by exactly one; a payload whose schema
equals the stored schema (or that carries no schema at all) leaves the
version unchanged. -/
theorem version_increment_on_schema_change (t : FormTemplate) (p : TemplatePatch) :
    (FormTemplateDetailView_perform_update t p).version =
      match p.schema with
      | some new_schema => if new_schema = t.schema then t.version else t.version + 1
      | none => t.version := by
  unfold FormTemplateDetailView_perform_update
  cases hp : p.schema with
  | none => rfl
  | some new_schema =>
      dsimp only
      by_cases h : t.schema = new_schema
      · rw [if_neg (by simp [h]), if_pos h.symm]
      · rw [if_pos h, if_neg (fun hh => h hh.symm)]
        rfl

/-- C8: `mark_as_read` is idempotent — the first call sets `is_read` (and
stamps `read_at` if the notification was unread), and any later call
returns the notification entirely unchanged, whatever instant it runs at. -/
theorem mark_as_read_idempotent (n : Notification) (t1 t2 : Nat) :
    mark_as_read t2 (mark_as_read t1 n) = mark_as_read t1 n ∧
      (mark_as_read t1 n).is_read = true := by
  unfold mark_as_read
  by_cases h : n.is_read <;> simp [h]

/-- C9: once `is_emailed` is set on a notification, every later run of the
`send_email_notification` task leaves the state untouched: the notification
row is not modified and nothing more is handed to the email transport,
whatever sequence of instants the task runs at. -/
theorem email_flag_prevents_resend (s : EmailState) (ts : List Nat)
    (h : s.notif.is_emailed = true) :
    run_email_task ts s = s := by
  induction ts with
  | nil => rfl
  | cons t ts ih =>
      have hstep : send_email_notification t s = s := by
        unfold send_email_notification
        rw [if_pos h]
      show run_email_task ts (send_email_notification t s) = s
      rw [hstep, ih]

/-- C9 witness: a concrete already-emailed notification state on which
three further runs of the task change nothing. -/
def c9_state : EmailState :=
  { notif :=
      { recipient := 4
        notification_type := .form_submitted
        is_emailed := true
        email_sent_at := some 50 }
    recipient_email := "admin@example.com"
    sent := ["admin@example.com"] }

theorem email_flag_prevents_resend_witness :
    run_email_task [60, 70, 80] c9_state = c9_state :=
  email_flag_prevents_resend c9_state [60, 70, 80] rfl

/-- C10: `validate_field_value` returns successfully for a `None` or
empty-string value before reaching any type-specific branch, whatever the
field's declared type, options or numeric config. -/
theorem empty_value_skips_validation (f : FieldDesc) :
    validate_field_value f JValue.null = .ok ∧
      validate_field_value f (JValue.str "") = .ok := by
  constructor <;> simp [validate_field_value]

/-- C4: whenever some schema field is marked required and its value in the
data is missing, `None`, the empty string or an empty list, the whole
data validation raises (the required-field loop raises at the first such
field, so validation never succeeds). -/
theorem required_empty_fails (fields : List FieldDesc) (data : Data) (f : FieldDesc)
    (hf : f ∈ fields) (hreq : f.required = true)
    (hempty : isEmptyValue (pyGet data f.name) = true) :
    ∃ errs, validate_form_data (.withFields fields) data = .failed errs := by
  have hne : find_required_error fields data ≠ none := by
    intro hn
    rw [find_required_error, List.findSome?_eq_none_iff] at hn
    have hfn := hn f hf
    rw [hreq] at hfn
    simp [hempty] at hfn
  cases hfr : find_required_error fields data with
  | none => exact absurd hfr hne
  | some nm => exact ⟨[(nm.1, [nm.2])], by simp [validate_form_data, hfr]⟩

/-- C4 witness: a single required text field with no data fails
validation. -/
def c4_field : FieldDesc :=
  { name := "full_name", label := "Full Name", ftype := .text, required := true }

theorem required_empty_fails_witness :
    c4_field ∈ [c4_field] ∧ c4_field.required = true ∧
      isEmptyValue (pyGet [] c4_field.name) = true ∧
      ∃ errs, validate_form_data (.withFields [c4_field]) [] = .failed errs :=
  ⟨List.mem_singleton.mpr rfl, rfl, rfl,
    required_empty_fails [c4_field] [] c4_field (List.mem_singleton.mpr rfl) rfl rfl⟩

/-- C6 counterexample: with two required fields both missing, the validator
raises at the FIRST one only — the resulting mapping contains `field_a` but
no entry for `field_b`, although `field_b` is also failing.  The claim that
the produced mapping covers every failing field is therefore false. -/
def c6_fa : FieldDesc :=
  { name := "field_a", label := "Field A", ftype := .text, required := true }

def c6_fb : FieldDesc :=
  { name := "field_b", label := "Field B", ftype := .text, required := true }

theorem error_mapping_drops_field :
    c6_fb.required = true ∧
    isEmptyValue (pyGet [] c6_fb.name) = true ∧
    validate_form_data (.withFields [c6_fa, c6_fb]) []
      = .failed [("field_a", ["Field Field A is required"])] ∧
    ([("field_a", ["Field Field A is required"])] : ValidationErrors).all
      (fun e => e.1 != "field_b") = true :=
  ⟨rfl, rfl, rfl, rfl⟩

/-- Fidelity check of the second way errors are dropped: an email field
holding the number 5 makes the source's `validate_email` raise an uncaught
`TypeError`, so the collection loop aborts before reaching the failing
number field and the whole validation crashes with no error mapping at
all. -/
def crash_email_field : FieldDesc :=
  { name := "contact", label := "Contact", ftype := .email }

def crash_num_field : FieldDesc := { name := "age", label := "Age", ftype := .number }

theorem email_crash_aborts_collection :
    validate_field_value crash_email_field (JValue.num 5) = .crash ∧
    collect_type_errors [crash_email_field, crash_num_field]
        [("contact", JValue.num 5), ("age", JValue.str "abc")] = .error () ∧
    validate_form_data (.withFields [crash_email_field, crash_num_field])
        [("contact", JValue.num 5), ("age", JValue.str "abc")] = .crash :=
  ⟨rfl, rfl, rfl⟩

/-- Every entry of the data whose field config marks it invalid appears in
the mapping produced by a collection run that completes without a crash. -/
theorem mem_collect_type_errors (fields : List FieldDesc) (data : Data) :
    ∀ (errs : ValidationErrors) (name : String) (v : JValue) (f : FieldDesc)
      (msg : String),
      collect_type_errors fields data = .ok errs →
      (name, v) ∈ data →
      get_field_config fields name = some f →
      validate_field_value f v = .invalid msg →
      (name, [msg]) ∈ errs := by
  induction data with
  | nil =>
      intro errs name v f msg _ hmem _ _
      simp at hmem
  | cons hd rest ih =>
      intro errs name v f msg hok hmem hcfg herr
      rw [List.mem_cons] at hmem
      cases hmem with
      | inl heq =>
          rw [← heq] at hok
          simp only [collect_type_errors, hcfg, herr] at hok
          cases hr : collect_type_errors fields rest with
          | error e =>
              rw [hr] at hok
              simp [Except.map] at hok
          | ok errs' =>
              rw [hr] at hok
              simp only [Except.map] at hok
              injection hok with hh
              rw [← hh]
              exact List.mem_cons_self _ _
      | inr hmem' =>
          simp only [collect_type_errors] at hok
          cases hc : get_field_config fields hd.1 with
          | none =>
              simp only [hc] at hok
              exact ih errs name v f msg hok hmem' hcfg herr
          | some cfg =>
              simp only [hc] at hok
              cases hv : validate_field_value cfg hd.2 with
              | crash =>
                  simp only [hv] at hok
                  simp at hok
              | ok =>
                  simp only [hv] at hok
                  exact ih errs name v f msg hok hmem' hcfg herr
              | invalid m0 =>
                  simp only [hv] at hok
                  cases hr : collect_type_errors fields rest with
                  | error e =>
                      rw [hr] at hok
                      simp [Except.map] at hok
                  | ok errs' =>
                      rw [hr] at hok
                      simp only [Except.map] at hok
                      injection hok with hh
                      rw [← hh]
                      exact List.mem_cons_of_mem _
                        (ih errs' name v f msg hr hmem' hcfg herr)

/-- C6 amended: when no required field is missing (so the required-field
loop does not raise first) AND the collection loop completes without an
uncaught exception (which a truthy non-string value in an email field
triggers, aborting validation with no mapping at all), the validator
raises the collected mapping and it contains the error of EVERY failing
present field — none dropped; when a required field is missing it raises
with (only) the first such field. -/
theorem type_errors_all_reported (fields : List FieldDesc) (data : Data)
    (name : String) (v : JValue) (f : FieldDesc) (msg : String)
    (errs : ValidationErrors)
    (hnr : find_required_error fields data = none)
    (hmem : (name, v) ∈ data)
    (hcfg : get_field_config fields name = some f)
    (herr : validate_field_value f v = .invalid msg)
    (hok : collect_type_errors fields data = .ok errs) :
    validate_form_data (.withFields fields) data = .failed errs ∧
      (name, [msg]) ∈ errs := by
  have hmem' : (name, [msg]) ∈ errs :=
    mem_collect_type_errors fields data errs name v f msg hok hmem hcfg herr
  have hne : errs ≠ [] := List.ne_nil_of_mem hmem'
  refine ⟨?_, hmem'⟩
  simp only [validate_form_data, hnr, hok]
  rw [if_neg (by simpa [List.isEmpty_iff] using hne)]

/-- C6 amended witness: one optional number field with a non-numeric value;
the collection completes and its error appears in the raised mapping. -/
def c6w_field : FieldDesc := { name := "age", label := "Age", ftype := .number }

theorem type_errors_all_reported_witness :
    validate_form_data (.withFields [c6w_field]) [("age", JValue.str "abc")]
        = .failed [("age", ["Age must be a number"])] ∧
      ("age", ["Age must be a number"])
        ∈ ([("age", ["Age must be a number"])] : ValidationErrors) :=
  type_errors_all_reported [c6w_field] [("age", JValue.str "abc")] "age"
    (JValue.str "abc") c6w_field "Age must be a number"
    [("age", ["Age must be a number"])]
    rfl (List.mem_singleton.mpr rfl) rfl rfl rfl

/-! Concrete state for claim C5.  One admin-role user, one client, one
draft submission. -/

def c5_template : FormTemplate :=
  { id := 1, name := "Survey", status := .active, schema := .empty }

def c5_admin : User := { id := 2, role := .admin, email := "admin@example.com" }

def c5_client : User := { id := 3, role := .client }

def c5_sub : FormSubmission :=
  { id := 10, form_template := 1, submitted_by := some 3, status := .draft }

def c5_state : SystemState :=
  { template := c5_template
    users := [c5_admin, c5_client]
    submissions := [c5_sub]
    notifications := [] }

def c5_submit : SubmissionPatch := { status := some .submitted }

def c5_redraft : SubmissionPatch := { status := some .draft }

/-- The state after submitting at instant 100 and reverting to draft at
instant 150 (both through `FormSubmissionDetailView`). -/
def c5_s1 : SystemState :=
  applyOps [.updateSubmission 0 c5_submit 100, .updateSubmission 0 c5_redraft 150] c5_state

/-- The state after the second draft-to-submitted transition, at
instant 200. -/
def c5_s2 : SystemState := stepOp c5_s1 (.updateSubmission 0 c5_submit 200)

/-- C5 counterexample: in `c5_s1` the submission is again a draft (with
`submitted_at` stamped 100 by the first submission); the status update to
`'submitted'` at instant 200 is a draft-to-submitted transition, yet
`submitted_at` stays 100 — not the transition time — and NO new
notification is created for the (single) admin: the guard
`not submission.submitted_at` in `perform_update` skips both effects.  The
claim as stated is therefore false for repeat submissions. -/
theorem resubmission_not_stamped :
    (c5_state.users.filter (fun u => u.role = .admin)).length = 1 ∧
    c5_s1.submissions.map FormSubmission.status = [.draft] ∧
    c5_s1.submissions.map FormSubmission.submitted_at = [some 100] ∧
    c5_s1.notifications.length = 1 ∧
    c5_s2.submissions.map FormSubmission.status = [.submitted] ∧
    c5_s2.submissions.map FormSubmission.submitted_at = [some 100] ∧
    c5_s2.notifications.length = 1 :=
  ⟨rfl, rfl, rfl, rfl, rfl, rfl, rfl⟩

/-- C5 amended: a status update to `'submitted'` of a submission whose
`submitted_at` is still unset (in particular any first draft-to-submitted
transition) stamps `submitted_at` with the transition time and creates
exactly one notification of type `'form_submitted'` per admin-role user
(one per entry of the admin filter of the user table); when `submitted_at`
is already set, neither effect happens (previous theorem). -/
theorem first_submission_stamps_and_notifies (s : SystemState) (i now : Nat)
    (p : SubmissionPatch) (sub : FormSubmission)
    (h1 : s.submissions[i]? = some sub)
    (h2 : p.status = some .submitted)
    (h3 : sub.submitted_at = none) :
    (∃ sub', (stepOp s (.updateSubmission i p now)).submissions[i]? = some sub' ∧
        sub'.submitted_at = some now ∧ sub'.status = .submitted) ∧
      ((stepOp s (.updateSubmission i p now)).notifications.drop
            s.notifications.length).map Notification.recipient
        = (s.users.filter (fun u => u.role = .admin)).map User.id ∧
      ∀ n ∈ (stepOp s (.updateSubmission i p now)).notifications.drop
          s.notifications.length,
        n.notification_type = .form_submitted := by
  have hsavedAt : (applySubmissionPatch sub p).submitted_at = none := by
    rw [applySubmissionPatch_submitted_at, h3]
  have hcond : FormSubmissionDetailView_perform_update now sub p
      = { submission := { applySubmissionPatch sub p with submitted_at := some now }
          queued := true } := by
    unfold FormSubmissionDetailView_perform_update
    rw [h2]
    dsimp only
    rw [if_pos ⟨rfl, hsavedAt⟩]
  simp only [stepOp, h1]
  rw [hcond]
  dsimp only
  rw [if_pos rfl]
  refine ⟨?_, ?_, ?_⟩
  · refine ⟨{ applySubmissionPatch sub p with submitted_at := some now }, ?_, rfl, ?_⟩
    · rw [getElem?_updateAt, if_pos rfl, h1]
      rfl
    · show (applySubmissionPatch sub p).status = .submitted
      exact applySubmissionPatch_status sub p .submitted h2
  · rw [List.drop_left]
    unfold send_form_submission_notification
    rw [List.map_map]
    rfl
  · intro n hn
    rw [List.drop_left] at hn
    unfold send_form_submission_notification at hn
    obtain ⟨a, _, ha⟩ := List.mem_map.mp hn
    rw [← ha]

/-- C5 amended witness: the first submission of the concrete draft above,
at instant 100, stamps `submitted_at := 100` and notifies exactly the one
admin. -/
theorem first_submission_stamps_and_notifies_witness :
    (∃ sub', (stepOp c5_state (.updateSubmission 0 c5_submit 100)).submissions[0]?
          = some sub' ∧ sub'.submitted_at = some 100 ∧ sub'.status = .submitted) ∧
      ((stepOp c5_state (.updateSubmission 0 c5_submit 100)).notifications.drop
            c5_state.notifications.length).map Notification.recipient
        = (c5_state.users.filter (fun u => u.role = .admin)).map User.id ∧
      ∀ n ∈ (stepOp c5_state (.updateSubmission 0 c5_submit 100)).notifications.drop
          c5_state.notifications.length,
        n.notification_type = .form_submitted :=
  first_submission_stamps_and_notifies c5_state 0 100 c5_submit c5_sub rfl rfl rfl

/-! Concrete data for claim C1. -/

/-- A template that explicitly allows multiple submissions. -/
def c1_template : FormTemplate :=
  { id := 1, name := "Feedback", status := .active, allow_multiple_submissions := true }

def c1_first : FormSubmission :=
  { id := 20, form_template := 1, submitted_by := some 7, status := .submitted }

def c1_second : FormSubmission :=
  { id := 21, form_template := 1, submitted_by := some 7, status := .submitted }

/-- A template that forbids multiple submissions. -/
def c1_single : FormTemplate :=
  { id := 2, name := "Application", status := .active, allow_multiple_submissions := false }

def c1_admin : User := { id := 99, role := .admin }

def c1_admin_first : FormSubmission :=
  { id := 22, form_template := 2, submitted_by := some 99, status := .submitted }

/-- C1, evaluation at the failing input: although `c1_template` has
`allow_multiple_submissions = true`, the unconditional `unique_together`
constraint on `(form_template, submitted_by)` rejects the user's second
submitted row — the "accepted when true" half of the claim fails.  And on a
single-submission template, `CanSubmitForm` (the cited permission class,
attached to no view) admits an admin's second submitted submission — the
"rejected when false" half fails for admin users. -/
theorem duplicate_submission_mishandled :
    c1_template.allow_multiple_submissions = true ∧
    db_insert_submission [c1_first] c1_second
      = .error "UNIQUE constraint failed: form_template, submitted_by" ∧
    c1_single.allow_multiple_submissions = false ∧
    CanSubmitForm_has_object_permission c1_admin c1_single [c1_admin_first] = true :=
  ⟨rfl, rfl, rfl, rfl⟩

/-! Concrete data for claim C3. -/

def c3_client : User := { id := 1, role := .client }

def c3_sub : FormSubmission :=
  { id := 30, form_template := 1, submitted_by := some 1
    status := .submitted, submitted_at := some 90 }

/-- The client PATCHes their own submission straight to `'approved'`. -/
def c3_patch : SubmissionPatch :=
  { status := some .approved, review_notes := some "self approved" }

def c3_state : SystemState :=
  { template := { id := 1, name := "Application", status := .active }
    users := [{ id := 2, role := .admin }, c3_client]
    submissions := [c3_sub]
    notifications := [] }

/-- C3, evaluation at the failing input: the object permission on
`FormSubmissionDetailView` is `IsOwnerOrAdmin`, which admits the non-admin
owner; `perform_update` saves the `'approved'` status but stamps neither
`reviewed_by` nor `reviewed_at`, queues nothing, and the state's
notification table is unchanged — `send_form_review_notification` has no
caller in the views.  Every part of the claim (admin-only, reviewer
stamping, submitter notification) is unimplemented on this path. -/
theorem review_transition_unenforced :
    c3_client.role ≠ Role.admin ∧
    IsOwnerOrAdmin_has_object_permission c3_client c3_sub = true ∧
    c3_sub.status = .submitted ∧
    (FormSubmissionDetailView_perform_update 500 c3_sub c3_patch).submission.status
      = .approved ∧
    (FormSubmissionDetailView_perform_update 500 c3_sub c3_patch).submission.reviewed_by
      = none ∧
    (FormSubmissionDetailView_perform_update 500 c3_sub c3_patch).submission.reviewed_at
      = none ∧
    (FormSubmissionDetailView_perform_update 500 c3_sub c3_patch).queued = false ∧
    (stepOp c3_state (.updateSubmission 0 c3_patch 500)).notifications
      = c3_state.notifications := by
  refine ⟨by decide, rfl, rfl, rfl, rfl, rfl, rfl, rfl⟩

end DynamicForms
